import Mathlib

/-!
Verification of the Windows Python launcher stub `mover.cpp`
(`python_win32_wrapper`). The launcher resolves its own executable path,
derives the companion script path `<dir>\mover.py`, inspects the script's
first line for an interpreter directive, builds a quoted command line,
spawns the interpreter and relays the child's exit code.

Strings are modelled as `List Char`. OS interactions (GetModuleFileName,
reading the script's first line, GetFileAttributes, CreateProcess /
GetExitCodeProcess) are parameters gathered in a `World` structure; C++
exceptions are modelled with `Except Nat`, the `Nat` being the thrown
Win32 error code.
-/

set_option autoImplicit false

namespace Mover

abbrev Str := List Char

/-- A character counts as a path separator for `find_last_of("\\/")`. -/
def isSep (c : Char) : Bool := c == '\\' || c == '/'

/-- Spaces and tabs are the "extra" characters trimmed around a shebang path. -/
def isWS (c : Char) : Bool := c == ' ' || c == '\t'

/-- Win32 `ERROR_PATH_NOT_FOUND`, thrown by `dirnameOf`. -/
def ERROR_PATH_NOT_FOUND : Nat := 3

/-- Win32 `ERROR_FILE_NOT_FOUND`, special-cased in `ExecuteCommand`'s message. -/
def ERROR_FILE_NOT_FOUND : Nat := 2

/-- Win32 `NO_ERROR`: the pre-initialized exit code in `ExecuteCommand`. -/
def NO_ERROR : Nat := 0

/-- The two-character interpreter-directive marker `static const std::string SHEBANG = "#!"`. -/
def SHEBANG : Str := "#!".toList

/-- The fixed companion filename appended to the executable's directory. -/
def moverPy : Str := "\\mover.py".toList

/-- The default interpreter `std::string pythonExecutable = "python.exe"`. -/
def defaultPython : Str := "python.exe".toList

/-- Index accumulator for `find_last_of("\\/")`: scans left to right keeping
the index of the last separator seen. -/
def findLastSepAux : Str → Nat → Option Nat → Option Nat
  | [], _, acc => acc
  | c :: cs, i, acc => findLastSepAux cs (i + 1) (if isSep c then some i else acc)

/-- `fname.find_last_of("\\/")`: position of the last `'\'` or `'/'`, if any. -/
def findLastSep (s : Str) : Option Nat := findLastSepAux s 0 none

/-- `dirnameOf`: substring before the last separator; throws
`ERROR_PATH_NOT_FOUND` when no separator occurs. -/
def dirnameOf (fname : Str) : Except Nat Str :=
  match findLastSep fname with
  | none => Except.error ERROR_PATH_NOT_FOUND
  | some pos => Except.ok (fname.take pos)

/-- `FindPythonScript`: the executable's directory plus `\mover.py`. -/
def FindPythonScript (exeFullPath : Str) : Except Nat Str :=
  match dirnameOf exeFullPath with
  | Except.error e => Except.error e
  | Except.ok d => Except.ok (d ++ moverPy)

/-- The shebang-processing block of `GetPythonExecutable`: if the line starts
with the marker, erase it, then left- and right-trim spaces/tabs, each trim
applied only when `find_first_not_of`/`find_last_not_of` finds a position. -/
def processFirstLine (line : Str) : Str :=
  if SHEBANG.isPrefixOf line then
    let rest := line.drop SHEBANG.length
    let l := if rest.any (fun c => !(isWS c)) then rest.dropWhile isWS else rest
    if l.any (fun c => !(isWS c)) then (l.reverse.dropWhile isWS).reverse else l
  else line

/-- `GetPythonExecutable`: recompute the script path, read its first line
(`readFirstLine` returning `none` models a failed `getline`, leaving the
string empty), process any shebang, then keep the resulting line as the
interpreter iff it is non-empty and `GetFileAttributes` succeeds on it
(`fileExists`); otherwise fall back to `python.exe`. -/
def GetPythonExecutable (fileExists : Str → Bool) (readFirstLine : Str → Option Str)
    (exeFullPath : Str) : Except Nat Str :=
  match dirnameOf exeFullPath with
  | Except.error e => Except.error e
  | Except.ok dir =>
    let scriptName := dir ++ moverPy
    let firstLine : Str :=
      match readFirstLine scriptName with
      | none => []
      | some line => processFirstLine line
    Except.ok (if !firstLine.isEmpty && fileExists firstLine then firstLine else defaultPython)

/-- `GetDoubleQuotedString`: wrap in double quotes unconditionally. -/
def GetDoubleQuotedString (input : Str) : Str := "\"".toList ++ input ++ "\"".toList

/-- The command-line construction in `main`: quoted interpreter, a space,
quoted script, then per forwarded argument `command += " "` followed by
`command += " \"" + arg + "\""`. -/
def buildCommand (pythonExecutable pythonScript : Str) (args : List Str) : Str :=
  List.foldl
    (fun command a => command ++ " ".toList ++ (" \"".toList ++ a ++ "\"".toList))
    (GetDoubleQuotedString pythonExecutable ++ " ".toList ++ GetDoubleQuotedString pythonScript)
    args

/-- The diagnostic lines the launcher can write to stderr. -/
inductive DiagLine where
  | pyNotFound (command : Str)
  | createProcessFailed (command : Str) (err : Nat)
  | failedToExecute
deriving DecidableEq

/-- Result of `ExecuteCommand`: stderr lines plus either a thrown error code
or the returned exit code. -/
structure ExecResult where
  stderrLines : List DiagLine
  outcome : Except Nat Nat

/-- `ExecuteCommand`: `createProcess` models `CreateProcess` followed (on
success) by `GetExitCodeProcess`; `Except.error e` is a creation failure with
`GetLastError() = e`, `Except.ok r` a created child whose exit-code retrieval
yielded `r` (`none` = `GetExitCodeProcess` failed, leaving the pre-initialized
`NO_ERROR`). On creation failure one message is printed when `printError`,
selected by the error code, and the code is thrown. -/
def ExecuteCommand (createProcess : Str → Except Nat (Option Nat))
    (command : Str) (printError : Bool) : ExecResult :=
  match createProcess command with
  | Except.error err =>
    ⟨if printError then
        [if err = ERROR_FILE_NOT_FOUND then DiagLine.pyNotFound command
         else DiagLine.createProcessFailed command err]
      else [],
     Except.error err⟩
  | Except.ok retrieved => ⟨[], Except.ok (retrieved.getD NO_ERROR)⟩

/-- The OS environment a launcher run interacts with. `moduleName` is
`GetModuleFileName` (error = the `GetLastError` code thrown on failure or
truncation). -/
structure World where
  moduleName : Except Nat Str
  readFirstLine : Str → Option Str
  fileExists : Str → Bool
  createProcess : Str → Except Nat (Option Nat)

/-- The body of `main`'s try block: resolve the module name, determine the
interpreter, find the script, build the command and execute it. -/
def mainTry (w : World) (args : List Str) : List DiagLine × Except Nat Nat :=
  match w.moduleName with
  | Except.error e => ([], Except.error e)
  | Except.ok exeFullPath =>
    match GetPythonExecutable w.fileExists w.readFirstLine exeFullPath with
    | Except.error e => ([], Except.error e)
    | Except.ok pythonExecutable =>
      match FindPythonScript exeFullPath with
      | Except.error e => ([], Except.error e)
      | Except.ok pythonScript =>
        let command := buildCommand pythonExecutable pythonScript args
        let r := ExecuteCommand w.createProcess command true
        (r.stderrLines, r.outcome)

/-- `main` with its top-level catch: any thrown error prints
`"Failed to execute the Python script..."` and exits 1; otherwise the child's
exit code is returned. Yields (stderr lines, process exit code). -/
def launcherMain (w : World) (args : List Str) : List DiagLine × Nat :=
  match mainTry w args with
  | (lines, Except.ok code) => (lines, code)
  | (lines, Except.error _) => (lines ++ [DiagLine.failedToExecute], 1)

/-! ### Lemmas about `find_last_of("\\/")` -/

theorem findLastSepAux_append (xs ys : Str) (i : Nat) (acc : Option Nat) :
    findLastSepAux (xs ++ ys) i acc =
      findLastSepAux ys (i + xs.length) (findLastSepAux xs i acc) := by
  induction xs generalizing i acc with
  | nil => simp [findLastSepAux]
  | cons c t ih =>
    simp only [List.cons_append, findLastSepAux, List.length_cons]
    rw [List.append_eq, ih]
    have h : i + 1 + t.length = i + (t.length + 1) := by omega
    rw [h]

theorem findLastSepAux_no_sep (xs : Str) (h : ∀ c ∈ xs, isSep c = false) :
    ∀ (i : Nat) (acc : Option Nat), findLastSepAux xs i acc = acc := by
  induction xs with
  | nil => intro i acc; rfl
  | cons c t ih =>
    intro i acc
    have hc : isSep c = false := h c (by simp)
    have ht : ∀ d ∈ t, isSep d = false := fun d hd => h d (by simp [hd])
    simp [findLastSepAux, hc, ih ht]

theorem findLastSep_append_sep (u v : Str) (c : Char) (hc : isSep c = true)
    (hv : ∀ d ∈ v, isSep d = false) :
    findLastSep (u ++ c :: v) = some u.length := by
  unfold findLastSep
  rw [findLastSepAux_append]
  simp [findLastSepAux, hc, findLastSepAux_no_sep v hv]

/-- Claim C5: for every executable path with at least one directory separator,
the companion script path is the prefix before the last separator followed by
`\mover.py`, regardless of depth or drive letter. The path is written
`u ++ c :: v` with `c` its last separator (`v` separator-free). -/
theorem c5_companion_path (u v : Str) (c : Char) (hc : isSep c = true)
    (hv : ∀ d ∈ v, isSep d = false) :
    FindPythonScript (u ++ c :: v) = Except.ok (u ++ moverPy) := by
  unfold FindPythonScript dirnameOf
  rw [findLastSep_append_sep u v c hc hv]
  simp [List.take_left]

/-- Witness for C5 at the concrete path `C:\app\mover.exe`. -/
theorem c5_witness :
    FindPythonScript ("C:\\app".toList ++ '\\' :: "mover.exe".toList) =
      Except.ok ("C:\\app".toList ++ moverPy) :=
  c5_companion_path "C:\\app".toList "mover.exe".toList '\\' (by decide) (by decide)

/-- Claim C6: a path with no directory separator makes companion-path
derivation throw `ERROR_PATH_NOT_FOUND` (never a path, never the current
directory), and the whole launcher then takes the fatal path: one diagnostic
line and exit code 1. -/
theorem c6_no_separator_fails (path : Str) (h : ∀ c ∈ path, isSep c = false)
    (rd : Str → Option Str) (fs : Str → Bool) (cp : Str → Except Nat (Option Nat))
    (args : List Str) :
    dirnameOf path = Except.error ERROR_PATH_NOT_FOUND ∧
    launcherMain ⟨Except.ok path, rd, fs, cp⟩ args = ([DiagLine.failedToExecute], 1) := by
  have hd : dirnameOf path = Except.error ERROR_PATH_NOT_FOUND := by
    unfold dirnameOf findLastSep
    rw [findLastSepAux_no_sep path h]
  have hg : GetPythonExecutable fs rd path = Except.error ERROR_PATH_NOT_FOUND := by
    unfold GetPythonExecutable
    rw [hd]
  exact ⟨hd, by simp [launcherMain, mainTry, hg]⟩

/-- Witness for C6 at the separator-free path `mover.exe`. -/
theorem c6_witness :
    dirnameOf "mover.exe".toList = Except.error ERROR_PATH_NOT_FOUND ∧
    launcherMain ⟨Except.ok "mover.exe".toList, fun _ => none, fun _ => false,
      fun _ => Except.ok (some 0)⟩ [] = ([DiagLine.failedToExecute], 1) :=
  c6_no_separator_fails "mover.exe".toList (by decide) _ _ _ []

/-! ### Lemmas about shebang-line processing -/

/-- Full whitespace/tab trim on both ends, as the spec describes it. -/
def trimWS (s : Str) : Str := ((s.dropWhile isWS).reverse.dropWhile isWS).reverse

theorem shebang_prefix_append (rest : Str) :
    SHEBANG.isPrefixOf (SHEBANG ++ rest) = true := by
  have h : SHEBANG = ['#', '!'] := rfl
  rw [h]
  simp [List.isPrefixOf]

theorem any_not_ws_dropWhile (s : Str) :
    ((s.dropWhile isWS).any fun c => !(isWS c)) = s.any fun c => !(isWS c) := by
  induction s with
  | nil => rfl
  | cons c t ih =>
    cases hc : isWS c with
    | true => simp [List.dropWhile_cons, hc, ih]
    | false => simp [List.dropWhile_cons, hc]

theorem trimWS_eq_nil_of_all_ws (s : Str) (h : (s.any fun c => !(isWS c)) = false) :
    trimWS s = [] := by
  have hall : ∀ c ∈ s, isWS c = true := by
    intro c hc
    have := (List.any_eq_false.mp h) c hc
    simpa using this
  have hdrop : s.dropWhile isWS = [] := List.dropWhile_eq_nil_iff.mpr hall
  simp [trimWS, hdrop]

theorem processFirstLine_all_ws (rest : Str)
    (h : (rest.any fun c => !(isWS c)) = false) :
    processFirstLine (SHEBANG ++ rest) = rest := by
  unfold processFirstLine
  simp [shebang_prefix_append, List.drop_left, h]

theorem processFirstLine_trims (rest : Str)
    (h : (rest.any fun c => !(isWS c)) = true) :
    processFirstLine (SHEBANG ++ rest) = trimWS rest := by
  unfold processFirstLine
  have h2 : ((rest.dropWhile isWS).any fun c => !(isWS c)) = true := by
    rw [any_not_ws_dropWhile]; exact h
  simp [shebang_prefix_append, List.drop_left, h, h2, trimWS]

/-- Claim C7: a first line `#!<path>` whose marker-stripped, whitespace-trimmed
remainder is non-empty and names an existing file makes that trimmed remainder
the chosen interpreter, exactly. -/
theorem c7_shebang_honored (fs : Str → Bool) (rd : Str → Option Str) (exe dir rest : Str)
    (hdir : dirnameOf exe = Except.ok dir)
    (hrd : rd (dir ++ moverPy) = some (SHEBANG ++ rest))
    (hne : trimWS rest ≠ [])
    (hfs : fs (trimWS rest) = true) :
    GetPythonExecutable fs rd exe = Except.ok (trimWS rest) := by
  have hany : (rest.any fun c => !(isWS c)) = true := by
    cases hany : rest.any fun c => !(isWS c) with
    | false => exact absurd (trimWS_eq_nil_of_all_ws rest hany) hne
    | true => rfl
  have hnonempty : (trimWS rest).isEmpty = false := by
    cases htr : trimWS rest with
    | nil => exact absurd htr hne
    | cons a l => rfl
  unfold GetPythonExecutable
  rw [hdir]
  simp [hrd, processFirstLine_trims rest hany, hnonempty, hfs]

/-- Witness for C7: first line `#!C:\Python39\python.exe` and that file
exists, for the executable `C:\app\mover.exe`. -/
theorem c7_witness :
    GetPythonExecutable (fun s => s == "C:\\Python39\\python.exe".toList)
      (fun _ => some ("#!C:\\Python39\\python.exe".toList)) "C:\\app\\mover.exe".toList =
      Except.ok (trimWS "C:\\Python39\\python.exe".toList) :=
  c7_shebang_honored (fun s => s == "C:\\Python39\\python.exe".toList)
    (fun _ => some ("#!C:\\Python39\\python.exe".toList))
    "C:\\app\\mover.exe".toList "C:\\app".toList "C:\\Python39\\python.exe".toList
    rfl rfl (by decide) (by decide)

/-- Claim C8: a first line with the `#!` marker whose trimmed remainder is
empty or names no existing file falls back to `python.exe`. The hypothesis
`hws` records the Win32 fact that a purely space/tab filename never passes the
`GetFileAttributes` existence check (Windows strips trailing spaces, leaving
an invalid empty name); it covers the corner where the remainder is non-empty
but all whitespace, so the code's untrimmed string is what gets checked. -/
theorem c8_shebang_fallback (fs : Str → Bool) (rd : Str → Option Str) (exe dir rest : Str)
    (hdir : dirnameOf exe = Except.ok dir)
    (hrd : rd (dir ++ moverPy) = some (SHEBANG ++ rest))
    (h : trimWS rest = [] ∨ fs (trimWS rest) = false)
    (hws : ∀ s : Str, (∀ c ∈ s, isWS c = true) → fs s = false) :
    GetPythonExecutable fs rd exe = Except.ok defaultPython := by
  unfold GetPythonExecutable
  rw [hdir]
  cases hany : rest.any fun c => !(isWS c) with
  | false =>
    have hall : ∀ c ∈ rest, isWS c = true := by
      intro c hc
      have := (List.any_eq_false.mp hany) c hc
      simpa using this
    have hfsrest : fs rest = false := hws rest hall
    simp [hrd, processFirstLine_all_ws rest hany, hfsrest]
  | true =>
    have heq := processFirstLine_trims rest hany
    cases h with
    | inl hnil => simp [hrd, heq, hnil]
    | inr hfs => simp [hrd, heq, hfs]

/-- Witness for C8: first line `#!  /does/not/exist  ` with no file existing
at all; the interpreter falls back to `python.exe`. -/
theorem c8_witness :
    GetPythonExecutable (fun _ => false)
      (fun _ => some ("#!  /does/not/exist  ".toList)) "C:\\app\\mover.exe".toList =
      Except.ok defaultPython :=
  c8_shebang_fallback (fun _ => false)
    (fun _ => some ("#!  /does/not/exist  ".toList))
    "C:\\app\\mover.exe".toList "C:\\app".toList "  /does/not/exist  ".toList
    rfl rfl (Or.inr rfl) (fun _ _ => rfl)

/-! ### Claim C1: markerless first lines -/

def exeC1 : Str := "C:\\app\\mover.exe".toList

def lineC1 : Str := "C:\\tools\\other.exe".toList

def rdC1 : Str → Option Str := fun _ => some lineC1

def fsC1 : Str → Bool := fun s => s == lineC1

/-- Counterexample to C1 as stated: the script's first line
`C:\tools\other.exe` has no `#!` marker, yet because it names an existing file
the code adopts it as the interpreter instead of `python.exe` — the
existence check is applied to the first line whether or not the marker was
present. -/
theorem c1_counterexample :
    SHEBANG.isPrefixOf lineC1 = false ∧
    GetPythonExecutable fsC1 rdC1 exeC1 = Except.ok lineC1 ∧
    lineC1 ≠ defaultPython :=
  ⟨by decide, rfl, by decide⟩

/-- Claim C1 amended: for an unreadable or missing script the interpreter is
`python.exe`; for a markerless first line the interpreter is `python.exe`
unless that very line is non-empty and names an existing file, in which case
the line itself is chosen. -/
theorem c1_markerless_interpreter (fs : Str → Bool) (rd : Str → Option Str) (exe dir : Str)
    (hdir : dirnameOf exe = Except.ok dir) :
    (rd (dir ++ moverPy) = none → GetPythonExecutable fs rd exe = Except.ok defaultPython) ∧
    (∀ line, rd (dir ++ moverPy) = some line → SHEBANG.isPrefixOf line = false →
      GetPythonExecutable fs rd exe =
        Except.ok (if !line.isEmpty && fs line then line else defaultPython)) := by
  constructor
  · intro hrd
    unfold GetPythonExecutable
    rw [hdir]
    simp [hrd]
  · intro line hrd hpre
    unfold GetPythonExecutable
    rw [hdir]
    simp [hrd, processFirstLine, hpre]

/-- Witness for the amended C1 at the markerless-but-existing first line. -/
theorem c1_witness :
    GetPythonExecutable fsC1 rdC1 exeC1 =
      Except.ok (if !lineC1.isEmpty && fsC1 lineC1 then lineC1 else defaultPython) :=
  (c1_markerless_interpreter fsC1 rdC1 exeC1 "C:\\app".toList rfl).2 lineC1 rfl (by decide)

/-! ### Claim C3: command-line construction -/

theorem foldl_append_join (g : Str → Str) (args : List Str) (init : Str) :
    List.foldl (fun cmd a => cmd ++ g a) init args = init ++ (args.map g).flatten := by
  induction args generalizing init with
  | nil => simp
  | cons a t ih => simp [ih, List.append_assoc]

/-- Modelled from the spec's words, for comparison only: quoted interpreter,
quoted script and each quoted argument joined with single spaces. -/
def specCommandOneSpace (py sc : Str) (args : List Str) : Str :=
  List.intercalate " ".toList
    ([GetDoubleQuotedString py, GetDoubleQuotedString sc] ++ args.map GetDoubleQuotedString)

def scC3 : Str := "C:\\app\\mover.py".toList

def argsC3 : List Str := ["a b".toList, "c".toList]

/-- Counterexample to C3 as stated: with arguments `["a b", "c"]` the code's
command line is not the single-space-separated concatenation of the quoted
pieces — each forwarded argument is preceded by two spaces
(`command += " "` then `command += " \"" + arg + "\""`). -/
theorem c3_counterexample :
    buildCommand defaultPython scC3 argsC3 ≠ specCommandOneSpace defaultPython scC3 argsC3 := by
  decide

/-- Claim C3 amended: the command line is the quoted interpreter, one space,
the quoted script, then every forwarded argument in original order, each
double-quoted and preceded by exactly two spaces. -/
theorem c3_command_line_shape (py sc : Str) (args : List Str) :
    buildCommand py sc args =
      GetDoubleQuotedString py ++ [' '] ++ GetDoubleQuotedString sc ++
        (args.map fun a => [' ', ' ', '"'] ++ a ++ ['"']).flatten := by
  unfold buildCommand
  have hfun : (fun (command : Str) a => command ++ " ".toList ++ (" \"".toList ++ a ++ "\"".toList)) =
      fun (command : Str) a => command ++ ([' ', ' ', '"'] ++ a ++ ['"']) := by
    funext command a
    show command ++ [' '] ++ ([' ', '"'] ++ a ++ ['"']) = command ++ ([' ', ' ', '"'] ++ a ++ ['"'])
    simp
  rw [hfun, foldl_append_join]
  show GetDoubleQuotedString py ++ [' '] ++ GetDoubleQuotedString sc ++ _ = _
  simp [List.append_assoc]

/-! ### Claim C9: the consulted script is the executed script -/

/-- The interpreter choice as a function of the existence oracle and the
result of reading the consulted script's first line. -/
def chooseInterpreter (fileExists : Str → Bool) (firstLineRead : Option Str) : Str :=
  let firstLine : Str :=
    match firstLineRead with
    | none => []
    | some line => processFirstLine line
  if !firstLine.isEmpty && fileExists firstLine then firstLine else defaultPython

/-- Claim C9: for any executable path (with a resolvable directory), the file
whose first line `GetPythonExecutable` inspects and the script path
`FindPythonScript` puts on the command line are the identical string
`dirnameOf(path) ++ "\mover.py"`: the interpreter directive is always read
from the very file the interpreter is asked to run. -/
theorem c9_script_consistency (fs : Str → Bool) (rd : Str → Option Str) (exe dir : Str)
    (hdir : dirnameOf exe = Except.ok dir) :
    FindPythonScript exe = Except.ok (dir ++ moverPy) ∧
    GetPythonExecutable fs rd exe = Except.ok (chooseInterpreter fs (rd (dir ++ moverPy))) := by
  constructor
  · unfold FindPythonScript
    rw [hdir]
  · unfold GetPythonExecutable chooseInterpreter
    rw [hdir]

/-- Witness for C9 at the executable `C:\app\mover.exe`. -/
theorem c9_witness :
    FindPythonScript exeC1 = Except.ok ("C:\\app".toList ++ moverPy) ∧
    GetPythonExecutable (fun _ => false) (fun _ => none) exeC1 =
      Except.ok (chooseInterpreter (fun _ => false)
        ((fun (_ : Str) => (none : Option Str)) ("C:\\app".toList ++ moverPy))) :=
  c9_script_consistency (fun _ => false) (fun _ => none) exeC1 "C:\\app".toList rfl

/-! ### Claims C4, C10: exit-code propagation -/

/-- Claim C4: whenever child-process creation succeeds and the child's exit
code is reported as `code`, the launcher's own exit code is exactly `code`
(any value, 0, 1 and 42 included), with no diagnostics and no
reinterpretation. -/
theorem c4_exit_code_propagation (w : World) (args : List Str) (p py sc : Str) (code : Nat)
    (hm : w.moduleName = Except.ok p)
    (hpy : GetPythonExecutable w.fileExists w.readFirstLine p = Except.ok py)
    (hsc : FindPythonScript p = Except.ok sc)
    (hcp : w.createProcess (buildCommand py sc args) = Except.ok (some code)) :
    launcherMain w args = ([], code) := by
  unfold launcherMain mainTry
  rw [hm]
  simp [hpy, hsc, ExecuteCommand, hcp]

def worldRet (code : Nat) : World :=
  ⟨Except.ok exeC1, fun _ => none, fun _ => false, fun _ => Except.ok (some code)⟩

/-- Witness for C4 with children exiting 0, 1 and 42. -/
theorem c4_witness :
    launcherMain (worldRet 0) [] = ([], 0) ∧
    launcherMain (worldRet 1) [] = ([], 1) ∧
    launcherMain (worldRet 42) [] = ([], 42) :=
  ⟨c4_exit_code_propagation (worldRet 0) [] exeC1 defaultPython
      ("C:\\app".toList ++ moverPy) 0 rfl rfl rfl rfl,
   c4_exit_code_propagation (worldRet 1) [] exeC1 defaultPython
      ("C:\\app".toList ++ moverPy) 1 rfl rfl rfl rfl,
   c4_exit_code_propagation (worldRet 42) [] exeC1 defaultPython
      ("C:\\app".toList ++ moverPy) 42 rfl rfl rfl rfl⟩

/-- Claim C10: if the child is created but `GetExitCodeProcess` fails, the
launcher silently exits with the pre-initialized `NO_ERROR` (0): retrieval
failure is reported as success, not as an internal failure. -/
theorem c10_exit_retrieval_default (w : World) (args : List Str) (p py sc : Str)
    (hm : w.moduleName = Except.ok p)
    (hpy : GetPythonExecutable w.fileExists w.readFirstLine p = Except.ok py)
    (hsc : FindPythonScript p = Except.ok sc)
    (hcp : w.createProcess (buildCommand py sc args) = Except.ok none) :
    launcherMain w args = ([], NO_ERROR) := by
  unfold launcherMain mainTry
  rw [hm]
  simp [hpy, hsc, ExecuteCommand, hcp, NO_ERROR]

def worldNoExit : World :=
  ⟨Except.ok exeC1, fun _ => none, fun _ => false, fun _ => Except.ok none⟩

/-- Witness for C10: exit-code retrieval fails, launcher exits 0. -/
theorem c10_witness : launcherMain worldNoExit [] = ([], NO_ERROR) :=
  c10_exit_retrieval_default worldNoExit [] exeC1 defaultPython
    ("C:\\app".toList ++ moverPy) rfl rfl rfl rfl

/-! ### Claim C2: failure diagnostics -/

def worldCPFail : World :=
  ⟨Except.ok exeC1, fun _ => none, fun _ => false, fun _ => Except.error 5⟩

/-- Counterexample to C2 as stated: when `CreateProcess` fails the launcher
emits two diagnostic lines, not one — the specific message printed inside
`ExecuteCommand` (here for error code 5) plus the generic catch-all line —
though the exit status is indeed 1. -/
theorem c2_counterexample :
    (launcherMain worldCPFail []).1.length = 2 ∧ (launcherMain worldCPFail []).2 = 1 :=
  ⟨rfl, rfl⟩

/-- Claim C2 amended: every internal failure exits with status 1; path
resolution and companion-path failures emit exactly one diagnostic line (the
catch-all), while a child-process creation failure emits exactly two (the
specific `ExecuteCommand` message, then the catch-all). -/
theorem c2_failure_diagnostics :
    (∀ (w : World) (args : List Str) (e : Nat), w.moduleName = Except.error e →
      launcherMain w args = ([DiagLine.failedToExecute], 1)) ∧
    (∀ (w : World) (args : List Str) (p : Str), w.moduleName = Except.ok p →
      dirnameOf p = Except.error ERROR_PATH_NOT_FOUND →
      launcherMain w args = ([DiagLine.failedToExecute], 1)) ∧
    (∀ (w : World) (args : List Str) (p py sc : Str) (e : Nat),
      w.moduleName = Except.ok p →
      GetPythonExecutable w.fileExists w.readFirstLine p = Except.ok py →
      FindPythonScript p = Except.ok sc →
      w.createProcess (buildCommand py sc args) = Except.error e →
      (launcherMain w args).1.length = 2 ∧ (launcherMain w args).2 = 1) := by
  refine ⟨?_, ?_, ?_⟩
  · intro w args e hm
    simp [launcherMain, mainTry, hm]
  · intro w args p hm hd
    have hg : GetPythonExecutable w.fileExists w.readFirstLine p =
        Except.error ERROR_PATH_NOT_FOUND := by
      unfold GetPythonExecutable
      rw [hd]
    simp [launcherMain, mainTry, hm, hg]
  · intro w args p py sc e hm hpy hsc hcp
    unfold launcherMain mainTry
    rw [hm]
    simp [hpy, hsc, ExecuteCommand, hcp]

def worldNoModule : World :=
  ⟨Except.error 122, fun _ => none, fun _ => false, fun _ => Except.ok (some 0)⟩

/-- Witness for the amended C2: a path-resolution failure (error 122,
truncation) gives one line and exit 1; a `CreateProcess` failure (error 5)
gives two lines and exit 1. -/
theorem c2_witness :
    launcherMain worldNoModule [] = ([DiagLine.failedToExecute], 1) ∧
    ((launcherMain worldCPFail []).1.length = 2 ∧ (launcherMain worldCPFail []).2 = 1) :=
  ⟨c2_failure_diagnostics.1 worldNoModule [] 122 rfl,
   c2_failure_diagnostics.2.2 worldCPFail [] exeC1 defaultPython
     ("C:\\app".toList ++ moverPy) 5 rfl rfl rfl rfl⟩

end Mover
